import Mathlib

/-!
Shallow embedding of the byterun bytecode interpreter
(src/homework/byterun/pyvm2.py and src/homework/byterun/pyobj.py)
and proofs about the claims on its frame, block, dispatch, call and
generator machinery.

Modelling conventions:
* Python lists used as stacks (frame.stack, frame.block_stack, vm.frames)
  are Lean lists in the same bottom-to-top order: append pushes at the end,
  pop removes the last element, take n keeps the bottom n entries.
* Python dict objects whose identity matters (globals and locals mappings,
  compared with the `is` operator) live in a heap keyed by numeric ids;
  closure cells likewise.  Other values are plain inductive values.
* Host-level exceptions raised while a statement runs are an Except error.
-/

namespace Byterun

/-- Runtime values of the embedded interpreter.  vmodule is an object
carrying an attribute dictionary (hasattr __dict__), vobj an instance of a
class given by name, vmethod a pyobj.Method with fields im_self, im_class
and (an id standing for) im_func, vfunc an interpreted function by id. -/
inductive BVal : Type where
  | vnone
  | vbool (b : Bool)
  | vint (n : Int)
  | vstr (s : String)
  | vlitDict (entries : List (String × BVal))
  | vmodule (attrs : List (String × BVal))
  | vobj (cls : String)
  | vmethod (im_self : Option BVal) (im_class : String) (im_func : Nat)
  | vfunc (id : Nat)

/-- Host exceptions that the embedded statements can raise. -/
inductive PyExc : Type where
  | typeError (msg : String)
  | nameError (msg : String)
  | attributeError (msg : String)
  | keyError (key : String)
  | indexError
  | valueError (msg : String)
  | assertionError
  | stopIteration (v : BVal)
  | vmError (msg : String)

/-- Lookup in an association list representing a Python dict (first match). -/
def assocFind {β : Type} : List (String × β) → String → Option β
  | [], _ => none
  | (k, v) :: rest, key => if k = key then some v else assocFind rest key

/-- Assignment d[k] = v on an association list: replace the first binding of
the key, or append a fresh binding at the end, as a Python dict does. -/
def assocSet {β : Type} : List (String × β) → String → β → List (String × β)
  | [], key, v => [(key, v)]
  | (k, w) :: rest, key, v =>
      if k = key then (k, v) :: rest else (k, w) :: assocSet rest key v

/-- Lookup by numeric id (first match). -/
def natFind {β : Type} : List (Nat × β) → Nat → Option β
  | [], _ => none
  | (k, v) :: rest, key => if k = key then some v else natFind rest key

/-- Entries of one Python dict object. -/
abbrev Entries := List (String × BVal)

/-- Heap of identity-bearing objects: dict objects and closure cells.
Fresh allocations cons at the head, so the newest binding of an id wins. -/
structure Heap where
  dicts : List (Nat × Entries)
  cells : List (Nat × BVal)
  nextDict : Nat
  nextCell : Nat

/-- Contents of the dict object with the given id. -/
def Heap.dictAt (σ : Heap) (i : Nat) : Entries := (natFind σ.dicts i).getD []

/-- Value of the cell with the given id. -/
def Heap.cellAt (σ : Heap) (i : Nat) : Option BVal := natFind σ.cells i

/-- Mutation d[k] = v of the dict object with id i. -/
def Heap.setKey (σ : Heap) (i : Nat) (k : String) (v : BVal) : Heap :=
  { σ with dicts := (i, assocSet (σ.dictAt i) k v) :: σ.dicts }

/-- Allocate a fresh dict object. -/
def Heap.allocDict (σ : Heap) (e : Entries) : Nat × Heap :=
  (σ.nextDict,
   { σ with dicts := (σ.nextDict, e) :: σ.dicts, nextDict := σ.nextDict + 1 })

/-- Allocate a fresh closure cell, as Cell(value) in pyobj.py does. -/
def Heap.allocCell (σ : Heap) (v : BVal) : Nat × Heap :=
  (σ.nextCell,
   { σ with cells := (σ.nextCell, v) :: σ.cells, nextCell := σ.nextCell + 1 })

/-- Compiled-unit metadata used by Frame construction (a Python code object). -/
structure Code where
  co_name : String
  co_flags : Nat
  co_cellvars : List String
  co_freevars : List String
  co_firstlineno : Nat
  deriving DecidableEq, Repr

/-- Control block record, pyobj.py Block = namedtuple(type, handler, level).
The handler is an instruction offset or None. -/
structure Block where
  type : String
  handler : Option Nat
  level : Nat
  deriving DecidableEq, Repr

/-- Activation record, pyobj.py Frame.  f_globals and f_locals are dict ids
into the heap; cells maps cell-variable names to cell ids (None before the
constructor creates the table); f_lasti is whatever object was last assigned
to it (the source assigns arbitrary jump values to this attribute).
generator records whether frame.generator is set. -/
structure Frame where
  f_code : Code
  f_globals : Nat
  f_locals : Nat
  f_builtins : BVal
  stack : List BVal
  f_lineno : Nat
  f_lasti : BVal
  cells : Option (List (String × Nat))
  block_stack : List Block
  generator : Bool

/-- Objects having a __dict__ attribute (modules and class instances). -/
def hasDunderDict : BVal → Bool
  | .vmodule _ => true
  | .vobj _ => true
  | _ => false

/-- Attribute dictionary of an object, for the f_builtins replacement step. -/
def dunderDict : BVal → BVal
  | .vmodule attrs => .vlitDict attrs
  | .vobj _ => .vlitDict []
  | v => v

/-- Builtins resolution of Frame.__init__ (pyobj.py:250-255): read
globals["__builtins__"], replace it by its attribute dictionary when it has
one, and on KeyError fall back to the one-entry dict with key "None". -/
def builtinsFrom (σ : Heap) (f_globals : Nat) : BVal :=
  match assocFind (σ.dictAt f_globals) "__builtins__" with
  | some v => if hasDunderDict v then dunderDict v else v
  | none => .vlitDict [("None", BVal.vnone)]

/-- One step of the cell-variable loop of Frame.__init__ (pyobj.py:264-266):
cell = Cell(self.f_locals.get(var)); f_back.cells[var] = self.cells[var] = cell.
The accumulator carries (self cell table, caller cell table, heap). -/
def cellStep (f_locals : Nat)
    (acc : List (String × Nat) × List (String × Nat) × Heap) (var : String) :
    List (String × Nat) × List (String × Nat) × Heap :=
  let cinit := (assocFind (acc.2.2.dictAt f_locals) var).getD BVal.vnone
  let (cid, σ₁) := acc.2.2.allocCell cinit
  (assocSet acc.1 var cid, assocSet acc.2.1 var cid, σ₁)

/-- Builtins choice of Frame.__init__ (pyobj.py:247-255): a caller whose
globals dict is the identical object passes its builtins on; otherwise they
are resolved from the globals dict. -/
def initBuiltins (f_globals : Nat) (f_back : Option Frame) (σ : Heap) : BVal :=
  match f_back with
  | some b =>
      if b.f_globals = f_globals then b.f_builtins else builtinsFrom σ f_globals
  | none => builtinsFrom σ f_globals

/-- Cell-variable block of Frame.__init__ (pyobj.py:260-268).  When the code
declares cell variables the caller cell table is read (AttributeError when
there is no caller), created when it is absent or empty (the source tests
`not f_back.cells`), and the loop allocates one Cell per variable, binding it
in the self table and the caller table.  Returns the self cell table, the
updated caller and the heap. -/
def initCells (f_code : Code) (f_locals : Nat) (f_back : Option Frame)
    (σ : Heap) :
    Except PyExc (Option (List (String × Nat)) × Option Frame × Heap) :=
  if f_code.co_cellvars = [] then .ok (none, f_back, σ)
  else
    match f_back with
    | none => .error (.attributeError "cells")
    | some b =>
        let backCells0 : List (String × Nat) :=
          match b.cells with
          | none => []
          | some cs => if cs.isEmpty then [] else cs
        let r := f_code.co_cellvars.foldl (cellStep f_locals) ([], backCells0, σ)
        .ok (some r.1, some { b with cells := some r.2.1 }, r.2.2)

/-- Loop body of the free-variable block: self.cells[var] = f_back.cells[var]
for each free variable, KeyError when the caller table lacks one. -/
def freeLoop (bcs : List (String × Nat)) :
    List String → List (String × Nat) → Except PyExc (List (String × Nat))
  | [], cs => .ok cs
  | var :: rest, cs =>
      match assocFind bcs var with
      | some cid => freeLoop bcs rest (assocSet cs var cid)
      | none => .error (.keyError var)

/-- Free-variable block of Frame.__init__ (pyobj.py:270-276): the self cell
table is created when absent, the asserts require a caller with a non-empty
cell table, and each free variable pulls the corresponding cell id from the
caller table. -/
def initFree (f_code : Code) (selfCells : Option (List (String × Nat)))
    (f_back₁ : Option Frame) :
    Except PyExc (Option (List (String × Nat))) :=
  if f_code.co_freevars = [] then .ok selfCells
  else
    let cs0 : List (String × Nat) :=
      match selfCells with
      | none => []
      | some cs => if cs.isEmpty then [] else cs
    match f_back₁ with
    | none => .error (.attributeError "cells")
    | some b =>
        match b.cells with
        | none => .error .assertionError
        | some bcs =>
            if bcs.isEmpty then .error .assertionError
            else
              match freeLoop bcs f_code.co_freevars cs0 with
              | .ok r => .ok (some r)
              | .error e => .error e

/-- Frame construction, pyobj.py Frame.__init__ (lines 233-279).  Returns the
new frame, the (possibly mutated) caller frame, and the heap after cell
allocation.  Statements that fail at the host level (attribute access on a
None caller, a failing assert, a missing key) become Except errors. -/
def Frame.init (f_code : Code) (f_globals f_locals : Nat)
    (f_back : Option Frame) (σ : Heap) :
    Except PyExc (Frame × Option Frame × Heap) :=
  let f_builtins := initBuiltins f_globals f_back σ
  match initCells f_code f_locals f_back σ with
  | .error e => .error e
  | .ok (selfCells, f_back₁, σ₁) =>
      match initFree f_code selfCells f_back₁ with
      | .error e => .error e
      | .ok selfCells₂ =>
          .ok
            ({ f_code := f_code, f_globals := f_globals, f_locals := f_locals,
               f_builtins := f_builtins, stack := [],
               f_lineno := f_code.co_firstlineno, f_lasti := .vint 0,
               cells := selfCells₂, block_stack := [], generator := false },
             f_back₁, σ₁)

/-- Reason tokens returned by instruction handlers (pyvm2.py uses the strings
"break", "continue", "return", "yield", "exception", "reraise"; the absent
reason is Option.none at use sites). -/
inductive Reason : Type where
  | rBreak
  | rContinue
  | rReturn
  | rYield
  | rException
  | rReraise
  deriving DecidableEq, Repr

/-- String form of a reason token, as pushed by self.push(why). -/
def Reason.str : Reason → String
  | .rBreak => "break"
  | .rContinue => "continue"
  | .rReturn => "return"
  | .rYield => "yield"
  | .rException => "exception"
  | .rReraise => "reraise"

/-- Engine state touched by the block machinery: the current frame together
with the return_value and last_exception attributes of the VirtualMachine
(these methods read and write nothing else). -/
structure EngineSt where
  frame : Frame
  return_value : BVal
  last_exception : Option (BVal × BVal × BVal)

/-- Assignment self.frame.f_lasti = jump (pyvm2.py jump, lines 84-89). -/
def jumpTo (s : EngineSt) (target : BVal) : EngineSt :=
  { s with frame := { s.frame with f_lasti := target } }

/-- Jump target passed as a block handler (an offset or None). -/
def handlerVal : Option Nat → BVal
  | some n => .vint n
  | none => .vnone

/-- Method push_block (pyvm2.py:91-101): the level defaults to the current
operand-stack depth. -/
def push_block (s : EngineSt) (btype : String) (handler : Option Nat)
    (level : Option Nat) : EngineSt :=
  let lvl := level.getD s.frame.stack.length
  { s with frame :=
      { s.frame with block_stack := s.frame.block_stack ++ [⟨btype, handler, lvl⟩] } }

/-- Method unwind_block (pyvm2.py:198-213).  Pops operand-stack entries while
the depth exceeds block.level plus the except-handler offset of 3 (the while
loop is exactly List.take, also when the stack is already at or below the
target), then for an except-handler block pops the saved triple
tb, value, exctype with popn(3) and stores it as last_exception in the order
(exctype, value, tb).  The unpacking fails at the host level when fewer than
three entries remain. -/
def unwind_block (s : EngineSt) (block : Block) : Except PyExc EngineSt :=
  let offset := if block.type = "except-handler" then 3 else 0
  let stack₁ := s.frame.stack.take (block.level + offset)
  if block.type = "except-handler" then
    match stack₁.drop (stack₁.length - 3) with
    | [tb, value, exctype] =>
        .ok { s with frame := { s.frame with stack := stack₁.take (stack₁.length - 3) },
                     last_exception := some (exctype, value, tb) }
    | _ => .error (.valueError "not enough values to unpack")
  else
    .ok { s with frame := { s.frame with stack := stack₁ } }

/-- Method manage_block_stack (pyvm2.py:286-324), one unwind step for the
innermost block. Returns the updated reason (None when the block handled it)
and the new state.  Reading block_stack[-1] on an empty block stack and
unpacking a None last_exception are host-level errors; the leading assert
rejects the yield reason. -/
def manage_block_stack (s : EngineSt) (why : Reason) :
    Except PyExc (Option Reason × EngineSt) :=
  if why = .rYield then .error .assertionError
  else
    match s.frame.block_stack.getLast? with
    | none => .error .indexError
    | some block =>
      if block.type = "loop" ∧ why = .rContinue then
        .ok (none, jumpTo s s.return_value)
      else
        let s₁ :=
          { s with frame := { s.frame with block_stack := s.frame.block_stack.dropLast } }
        match unwind_block s₁ block with
        | .error e => .error e
        | .ok s₂ =>
          if block.type = "loop" ∧ why = .rBreak then
            .ok (none, jumpTo s₂ (handlerVal block.handler))
          else if why = .rException ∧ (block.type = "setup-except" ∨ block.type = "finally") then
            let s₃ := push_block s₂ "except-handler" none none
            match s₃.last_exception with
            | none => .error (.typeError "cannot unpack None")
            | some (exctype, value, tb) =>
                let s₄ :=
                  { s₃ with frame :=
                      { s₃.frame with stack := s₃.frame.stack ++ [tb, value, exctype] } }
                .ok (none, jumpTo s₄ (handlerVal block.handler))
          else if block.type = "finally" then
            let s₃ :=
              if why = .rReturn ∨ why = .rContinue then
                { s₂ with frame :=
                    { s₂.frame with stack := s₂.frame.stack ++ [s₂.return_value] } }
              else s₂
            let s₄ :=
              { s₃ with frame :=
                  { s₃.frame with stack := s₃.frame.stack ++ [BVal.vstr why.str] } }
            .ok (none, jumpTo s₄ (handlerVal block.handler))
          else
            .ok (some why, s₂)

/-- VirtualMachine attribute state (pyvm2.py __init__, lines 32-41). -/
structure VM where
  frames : List Frame
  frame : Option Frame
  return_value : BVal
  last_exception : Option (BVal × BVal × BVal)

/-- Default module globals built by make_frame when the engine has no frames
and no globals were supplied (pyvm2.py:128-133).  The host builtins module is
modelled as a module object with an unspecified attribute dictionary. -/
def initialGlobals : Entries :=
  [("__builtins__", BVal.vmodule []),
   ("__name__", BVal.vstr "__main__"),
   ("__doc__", BVal.vnone),
   ("__package__", BVal.vnone)]

/-- Method make_frame (pyvm2.py:110-136).  Chooses the globals and locals
dicts: an explicit globals argument without locals makes the locals dict the
very same object as the globals dict; otherwise locals are a fresh empty dict
(inheriting the current frame globals) or the fresh default module dict.
Then f_locals.update(callargs) writes the call arguments into the locals dict
and the Frame constructor runs with the current frame as caller.  Returns the
new frame, the possibly mutated caller and the heap. -/
def make_frame (vm : VM) (σ : Heap) (code : Code) (callargs : Entries)
    (f_globalsArg f_localsArg : Option Nat) :
    Except PyExc (Frame × Option Frame × Heap) :=
  match
    (match f_globalsArg with
     | some g => Except.ok (g, f_localsArg.getD g, σ)
     | none =>
       if vm.frames.isEmpty = false then
         match vm.frame with
         | some fr =>
             let (lid, σa) := σ.allocDict []
             Except.ok (fr.f_globals, lid, σa)
         | none => Except.error (.attributeError "f_globals")
       else
         let (gid, σa) := σ.allocDict initialGlobals
         Except.ok (gid, gid, σa) :
       Except PyExc (Nat × Nat × Heap))
  with
  | .error e => .error e
  | .ok (f_globals, f_locals, σ₀) =>
      let σ₁ := callargs.foldl (fun h kv => h.setKey f_locals kv.1 kv.2) σ₀
      Frame.init code f_globals f_locals vm.frame σ₁

/-- Membership and lookup in the f_builtins object; modelled for dict-valued
builtins, the only shape the embedded theorems exercise (testing membership
in a non-dict object would raise at the host level). -/
def builtinsContains : BVal → String → Except PyExc (Option BVal)
  | .vlitDict e, name => .ok (assocFind e name)
  | _, _ => .error (.typeError "argument is not iterable")

/-- Handler byte_STORE_NAME (pyvm2.py:464-471): frame.f_locals[name] = pop(). -/
def byte_STORE_NAME (fr : Frame) (σ : Heap) (name : String) :
    Except PyExc (Frame × Heap) :=
  match fr.stack.getLast? with
  | none => .error .indexError
  | some v => .ok ({ fr with stack := fr.stack.dropLast }, σ.setKey fr.f_locals name v)

/-- Handler byte_STORE_GLOBAL (pyvm2.py:527-534): f.f_globals[name] = pop(). -/
def byte_STORE_GLOBAL (fr : Frame) (σ : Heap) (name : String) :
    Except PyExc (Frame × Heap) :=
  match fr.stack.getLast? with
  | none => .error .indexError
  | some v => .ok ({ fr with stack := fr.stack.dropLast }, σ.setKey fr.f_globals name v)

/-- Handler byte_LOAD_NAME (pyvm2.py:445-462): look the name up in locals,
then globals, then builtins, pushing the value, else NameError. -/
def byte_LOAD_NAME (fr : Frame) (σ : Heap) (name : String) :
    Except PyExc (Frame × Heap) := do
  match assocFind (σ.dictAt fr.f_locals) name with
  | some v => pure ({ fr with stack := fr.stack ++ [v] }, σ)
  | none =>
    match assocFind (σ.dictAt fr.f_globals) name with
    | some v => pure ({ fr with stack := fr.stack ++ [v] }, σ)
    | none =>
      match (← builtinsContains fr.f_builtins name) with
      | some v => pure ({ fr with stack := fr.stack ++ [v] }, σ)
      | none => throw (.nameError ("name " ++ name ++ " is not defined"))

/-- Handler byte_LOAD_GLOBAL (pyvm2.py:511-525): look the name up in globals,
then builtins, pushing the value, else NameError. -/
def byte_LOAD_GLOBAL (fr : Frame) (σ : Heap) (name : String) :
    Except PyExc (Frame × Heap) := do
  match assocFind (σ.dictAt fr.f_globals) name with
  | some v => pure ({ fr with stack := fr.stack ++ [v] }, σ)
  | none =>
    match (← builtinsContains fr.f_builtins name) with
    | some v => pure ({ fr with stack := fr.stack ++ [v] }, σ)
    | none => throw (.nameError ("global name " ++ name ++ " is undefined"))

/-- Handler byte_RETURN_VALUE (pyvm2.py:1442-1452): pop the top of stack into
return_value, mark the generator of the frame finished when there is one, and
report the return reason.  The result carries the new finished flag of the
frame generator (unchanged when the frame is not generator-backed). -/
def byte_RETURN_VALUE (s : EngineSt) (genFinished : Bool) :
    Except PyExc (Option Reason × EngineSt × Bool) :=
  match s.frame.stack.getLast? with
  | none => .error .indexError
  | some v =>
      .ok (some .rReturn,
           { s with return_value := v,
                    frame := { s.frame with stack := s.frame.stack.dropLast } },
           if s.frame.generator then true else genFinished)

/-- Names of all instructions with a byte_NAME handler method defined in the
VirtualMachine class body (byte_PRINT_EXPR sits under `if 0:` and is never
defined; byte_CALL_FUNCTION and byte_LOAD_BUILD_CLASS appear twice in the
source and once here). -/
def handlerNames : List String :=
  ["LOAD_CONST", "POP_TOP", "DUP_TOP", "DUP_TOP_TWO", "ROT_TWO", "ROT_THREE",
   "ROT_FOUR", "DUP_TOPX", "LOAD_NAME", "STORE_NAME", "DELETE_NAME",
   "LOAD_FAST", "STORE_FAST", "DELETE_FAST", "LOAD_GLOBAL", "STORE_GLOBAL",
   "LOAD_DEREF", "STORE_DEREF", "LOAD_LOCALS", "COMPARE_OP", "LOAD_ATTR",
   "STORE_ATTR", "DELETE_ATTR", "STORE_SUBSCR", "DELETE_SUBSCR",
   "BUILD_TUPLE", "BUILD_LIST", "BUILD_SET", "BUILD_MAP", "STORE_MAP",
   "UNPACK_SEQUENCE", "BUILD_SLICE", "LIST_APPEND", "SET_ADD", "MAP_ADD",
   "PRINT_ITEM", "PRINT_ITEM_TO", "PRINT_NEWLINE", "PRINT_NEWLINE_TO",
   "JUMP_FORWARD", "JUMP_ABSOLUTE", "JUMP_IF_TRUE", "JUMP_IF_FALSE",
   "POP_JUMP_IF_TRUE", "POP_JUMP_IF_FALSE", "JUMP_IF_TRUE_OR_POP",
   "JUMP_IF_FALSE_OR_POP", "SETUP_LOOP", "GET_ITER", "FOR_ITER", "BREAK_LOOP",
   "CONTINUE_LOOP", "SETUP_EXCEPT", "SETUP_FINALLY", "END_FINALLY",
   "POP_BLOCK", "RAISE_VARARGS", "POP_EXCEPT", "SETUP_WITH", "WITH_CLEANUP",
   "MAKE_FUNCTION", "LOAD_CLOSURE", "MAKE_CLOSURE", "CALL_FUNCTION",
   "LOAD_BUILD_CLASS", "CALL_FUNCTION_VAR", "CALL_FUNCTION_VAR_KW",
   "CALL_FUNCTION_KW", "CALL_FUNCTION_EX", "RETURN_VALUE", "YIELD_VALUE",
   "YIELD_FROM", "IMPORT_NAME", "IMPORT_STAR", "IMPORT_FROM", "EXEC_STMT",
   "STORE_LOCALS", "SET_LINENO"]

/-- Routing decision of the dispatch method (pyvm2.py:249-284).  fastNop is
the RESUME and CACHE fast path that returns the None reason without handler
lookup; the three operator constructors carry the trailing operator name
routed to the shared handlers; callHandler names an existing byte_ handler.
whyException is the no-handler outcome: the method raises
VirtualMachineError("Unknown bytecode type: ...") inside its try statement,
and its own `except Exception` wrapper catches that error (VirtualMachineError
subclasses Exception), stores it as self.last_exception, and makes the method
return the reason "exception" - the carried value is the stored error. -/
inductive DispatchRoute : Type where
  | fastNop
  | unaryOp (op : String)
  | binaryOp (op : String)
  | inplaceOp (op : String)
  | sliceOp (name : String)
  | callHandler (name : String)
  | whyException (lastExc : PyExc)

/-- Character-level prefix test (the str.startswith of the source). -/
def listStartsWith : List Char → List Char → Bool
  | _, [] => true
  | [], _ :: _ => false
  | c :: cs, p :: ps => c = p && listStartsWith cs ps

/-- Prefix test on strings, via their character lists. -/
def strStartsWith (s p : String) : Bool := listStartsWith s.data p.data

/-- Substring test on character lists: some suffix starts with the pattern. -/
def listContainsSub : List Char → List Char → Bool
  | s, sub =>
    match s with
    | [] => sub.isEmpty
    | _ :: rest => listStartsWith s sub || listContainsSub rest sub

/-- Test for the substring "SLICE+" used by the dispatch routing
(`'SLICE+' in byteName` in the source). -/
def containsSlicePlus (s : String) : Bool := listContainsSub s.data "SLICE+".data

/-- Method dispatch (pyvm2.py:249-284), reduced to its routing structure: the
branch taken for a byte name.  Handler bodies themselves are embedded
separately; the no-handler branch is total because the raised
VirtualMachineError never leaves the method (see DispatchRoute). -/
def dispatch (byteName : String) : DispatchRoute :=
  if byteName = "RESUME" ∨ byteName = "CACHE" then .fastNop
  else if strStartsWith byteName "UNARY_" then .unaryOp (byteName.drop 6)
  else if strStartsWith byteName "BINARY_" then .binaryOp (byteName.drop 7)
  else if strStartsWith byteName "INPLACE_" then .inplaceOp (byteName.drop 8)
  else if containsSlicePlus byteName then .sliceOp byteName
  else if handlerNames.contains byteName then .callHandler byteName
  else .whyException (.vmError ("Unknown bytecode type: " ++ byteName))

/-- Attributes an object of class VirtualMachine actually has: the four
instance attributes set in __init__ (pyvm2.py:38-41) plus every class-level
method and table.  In particular f_code is not among them. -/
def vmAttrs : List String :=
  ["frames", "frame", "return_value", "last_exception",
   "top", "pop", "push", "popn", "peek", "jump", "push_block", "pop_block",
   "make_frame", "push_frame", "pop_frame", "print_frames", "resume_frame",
   "run_code", "unwind_block", "parse_byte_and_args", "log", "dispatch",
   "manage_block_stack", "run_frame", "handle_exception", "print_item",
   "print_newline", "unaryOperator", "binaryOperator", "inplaceOperator",
   "sliceOperator", "do_raise", "call_function",
   "UNARY_OPERATORS", "BINARY_OPERATORS", "COMPARE_OPERATORS"]
  ++ handlerNames.map (fun n => "byte_" ++ n)

/-- Module-level names defined in pyvm2.py (imports and top-level
definitions).  handle_exception is only a method of the VirtualMachine class
and is not among them, so the bare name lookup inside run_frame fails. -/
def pyvm2ModuleNames : List String :=
  ["dis", "inspect", "linecache", "logging", "operator", "reprlib", "sys",
   "traceback", "Block", "Frame", "Function", "Generator", "log", "repr_obj",
   "repper", "VirtualMachineError", "VirtualMachine"]

/-- Outcome of a call that either raises a host exception or returns. -/
inductive RunOutcome : Type where
  | raises (e : PyExc)
  | returns (v : BVal)

/-- Method run_frame exactly as the source defines it (pyvm2.py:326-359).
Its parameter list is written (frame, self), so the bound call
self.run_frame(f) binds the VirtualMachine instance to the parameter named
frame and the actual frame to the parameter named self.  The first statement
of the loop body evaluates frame.f_code, an attribute the VirtualMachine
object does not have (see vmAttrs), raising AttributeError; the clause
`except Exception as e` catches it and then evaluates the bare name
handle_exception, which exists neither as a local nor as a module-level name
(see pyvm2ModuleNames), so NameError is raised inside the handler and escapes
the method.  No branch of the method reads or writes self.frames, so the
engine state is returned unchanged whatever the inputs. -/
def run_frame (frame : VM) (self : Frame) : VM × RunOutcome :=
  if vmAttrs.contains "f_code" then
    (frame, .returns .vnone)
  else if pyvm2ModuleNames.contains "handle_exception" then
    (frame, .returns .vnone)
  else
    (frame, .raises (.nameError "name handle_exception is not defined"))

/-- Method run_code (pyvm2.py:180-196), with the run_frame call abstracted as
a parameter (the run_frame of this repository never returns normally, see
run_frame above; the claims about run_code concern its leftover checks).
After the frame runs, a non-empty frame stack raises
VirtualMachineError("Frames left over!") and a current frame with a non-empty
operand stack raises VirtualMachineError("Data remains on stack!"); only then
is the value returned. -/
def run_code (runFrameF : VM → Heap → Frame → Except PyExc (BVal × VM × Heap))
    (vm : VM) (σ : Heap) (code : Code) (f_globalsArg f_localsArg : Option Nat) :
    Except PyExc (BVal × VM × Heap) :=
  match make_frame vm σ code [] f_globalsArg f_localsArg with
  | .error e => .error e
  | .ok (fr, back, σ₁) =>
      match runFrameF { vm with frame := back } σ₁ fr with
      | .error e => .error e
      | .ok (val, vm₁, σ₂) =>
          if vm₁.frames.isEmpty = false then
            .error (.vmError "Frames left over!")
          else
            match vm₁.frame with
            | some f =>
                if f.stack.isEmpty = false then
                  .error (.vmError "Data remains on stack!")
                else .ok (val, vm₁, σ₂)
            | none => .ok (val, vm₁, σ₂)

/-- Test value is None, the identity test of the source. -/
def isNoneV : BVal → Bool
  | .vnone => true
  | _ => false

/-- Generator state (pyobj.py Generator): the operand stack of the suspended
frame together with the started and finished flags. -/
structure GenSt where
  gi_frame_stack : List BVal
  started : Bool
  finished : Bool

/-- Method Generator.send (pyobj.py:353-371).  resume stands for the call
self.vm.resume_frame(self.gi_frame); it receives the generator state after
the value was appended to the suspended frame stack and started was set, and
yields the produced value together with the finished flag as it stands after
resumption (byte_RETURN_VALUE sets it when the frame returns).  A never
started generator rejects a non-None value with TypeError before anything
else runs; a finished flag after resumption turns into
StopIteration carrying the value; otherwise the value is returned. -/
def Generator.send (g : GenSt) (value : BVal)
    (resume : GenSt → BVal × Bool) : Except PyExc (BVal × GenSt) :=
  if g.started = false ∧ isNoneV value = false then
    .error (.typeError "Cannot send a non-None value to a just-started generator")
  else
    let g₁ : GenSt :=
      { g with gi_frame_stack := g.gi_frame_stack ++ [value], started := true }
    let r := resume g₁
    let g₂ : GenSt := { g₁ with finished := r.2 }
    if g₂.finished then .error (.stopIteration r.1)
    else .ok (r.1, g₂)

mutual
/-- Structural value equality, standing in for the Python == used by dict
keys (identity-tagged objects compare by id). -/
def bvalBeq : BVal → BVal → Bool
  | .vnone, .vnone => true
  | .vbool a, .vbool b => a = b
  | .vint a, .vint b => a = b
  | .vstr a, .vstr b => a = b
  | .vlitDict a, .vlitDict b => entriesBeq a b
  | .vmodule a, .vmodule b => entriesBeq a b
  | .vobj a, .vobj b => a = b
  | .vmethod s₁ c₁ f₁, .vmethod s₂ c₂ f₂ => bvalOptBeq s₁ s₂ && c₁ = c₂ && f₁ = f₂
  | .vfunc a, .vfunc b => a = b
  | _, _ => false

/-- Equality on optional values, helper of bvalBeq. -/
def bvalOptBeq : Option BVal → Option BVal → Bool
  | none, none => true
  | some a, some b => bvalBeq a b
  | _, _ => false

/-- Pointwise equality of dict entries, helper of bvalBeq. -/
def entriesBeq : List (String × BVal) → List (String × BVal) → Bool
  | [], [] => true
  | (k₁, v₁) :: r₁, (k₂, v₂) :: r₂ => k₁ = k₂ && bvalBeq v₁ v₂ && entriesBeq r₁ r₂
  | _, _ => false
end

/-- Assignment d[k] = v on a dict keyed by runtime values. -/
def dictSetB : List (BVal × BVal) → BVal → BVal → List (BVal × BVal)
  | [], k, v => [(k, v)]
  | (k₀, w) :: rest, k, v =>
      if bvalBeq k₀ k then (k₀, v) :: rest else (k₀, w) :: dictSetB rest k v

/-- Python truthiness of the modelled values. -/
def truthy : BVal → Bool
  | .vnone => false
  | .vbool b => b
  | .vint n => n ≠ 0
  | .vstr s => s ≠ ""
  | .vlitDict e => e.isEmpty = false
  | .vmodule _ => true
  | .vobj _ => true
  | .vmethod _ _ _ => true
  | .vfunc _ => true

/-- Name of the type of a value, as type(x).__name__ renders it. -/
def typeName : BVal → String
  | .vnone => "NoneType"
  | .vbool _ => "bool"
  | .vint _ => "int"
  | .vstr _ => "str"
  | .vlitDict _ => "dict"
  | .vmodule _ => "module"
  | .vobj cls => cls
  | .vmethod _ _ _ => "Method"
  | .vfunc _ => "Function"

/-- Test isinstance(v, cls) for a class given by name (subclassing of user
classes is not modelled; an instance matches exactly its class). -/
def isInstanceOf (v : BVal) (cls : String) : Bool := typeName v = cls

/-- Method call_function (pyvm2.py:1401-1440).  divmod(arg, 256) splits the
keyword and positional counts; lenKw popn(2) pairs feed namedargs, kwargs
are merged in, lenPos values are popped as posargs and extended with args,
then the callable is popped.  For a Method (hasattr im_func) a truthy im_self
is inserted as first positional argument and posargs[0] must be an instance
of im_class: on a mismatch the source tries to raise TypeError, but building
the message evaluates func.__name__ on the Method object, which has only the
attributes im_self, im_class and im_func, so AttributeError is raised
instead and escapes.  invoke stands for the final func(*posargs, **namedargs)
call; its result is pushed. -/
def call_function (s : EngineSt) (arg : Nat)
    (args : List BVal) (kwargs : List (BVal × BVal))
    (invoke : BVal → List BVal → List (BVal × BVal) → BVal) :
    Except PyExc EngineSt := do
  let lenKw := arg / 256
  let lenPos := arg % 256
  let popPair := fun (acc : Except PyExc (List BVal × List (BVal × BVal))) (_ : Nat) => do
    let (stk, named) ← acc
    match stk.drop (stk.length - 2) with
    | [key, val] => pure (stk.take (stk.length - 2), dictSetB named key val)
    | _ => throw (.valueError "not enough values to unpack")
  let (stk₁, named₀) ← (List.range lenKw).foldl popPair (pure (s.frame.stack, []))
  let namedargs := kwargs.foldl (fun d kv => dictSetB d kv.1 kv.2) named₀
  let posargs₀ := stk₁.drop (stk₁.length - lenPos)
  let stk₂ := stk₁.take (stk₁.length - lenPos)
  let posargs₁ := posargs₀ ++ args
  match stk₂.getLast? with
  | none => throw .indexError
  | some func =>
    let stk₃ := stk₂.dropLast
    match func with
    | .vmethod im_self im_class im_func =>
        let posargs₂ :=
          match im_self with
          | some r => if truthy r then r :: posargs₁ else posargs₁
          | none => posargs₁
        match posargs₂.head? with
        | none => throw .indexError
        | some a0 =>
            if isInstanceOf a0 im_class = false then
              throw (.attributeError "Method object has no attribute __name__")
            else
              let retval := invoke (.vfunc im_func) posargs₂ namedargs
              pure { s with frame := { s.frame with stack := stk₃ ++ [retval] } }
    | _ =>
        let retval := invoke func posargs₁ namedargs
        pure { s with frame := { s.frame with stack := stk₃ ++ [retval] } }

/-- Callable semantics that ignores its arguments, used to instantiate the
invoke parameter at concrete inputs. -/
def nullInvoke : BVal → List BVal → List (BVal × BVal) → BVal :=
  fun _ _ _ => .vnone

/-- Compiled unit with no cell or free variables, for concrete instances. -/
def code0 : Code := ⟨"f", 0, [], [], 1⟩

/-- Compiled unit declaring the single cell variable x, for concrete
instances. -/
def codeCell : Code := ⟨"g", 0, ["x"], [], 1⟩

/-! Helper lemmas about the embedding (shared across claim proofs). -/

theorem exceptBind_ok {α β : Type} {x : Except PyExc α} {f : α → Except PyExc β}
    {b : β} (h : x >>= f = .ok b) : ∃ a, x = .ok a ∧ f a = .ok b := by
  cases x with
  | error e => simp [Bind.bind, Except.bind] at h
  | ok a => exact ⟨a, rfl, by simpa [Bind.bind, Except.bind] using h⟩

theorem assocFind_assocSet_self {β : Type} (d : List (String × β)) (k : String)
    (v : β) : assocFind (assocSet d k v) k = some v := by
  induction d with
  | nil => simp [assocSet, assocFind]
  | cons p rest ih =>
      obtain ⟨k₀, w⟩ := p
      by_cases hp : k₀ = k
      · simp [assocSet, hp, assocFind]
      · simp [assocSet, hp, assocFind, ih]

theorem assocFind_assocSet_ne {β : Type} (d : List (String × β)) (k key : String)
    (v : β) (h : k ≠ key) : assocFind (assocSet d k v) key = assocFind d key := by
  induction d with
  | nil => simp [assocSet, assocFind, h]
  | cons p rest ih =>
      obtain ⟨k₀, w⟩ := p
      by_cases hp : k₀ = k
      · subst hp; simp [assocSet, assocFind, h]
      · simp [assocSet, hp, assocFind, ih]

theorem Heap.dictAt_setKey_self (σ : Heap) (i : Nat) (k : String) (v : BVal) :
    (σ.setKey i k v).dictAt i = assocSet (σ.dictAt i) k v := by
  simp [Heap.setKey, Heap.dictAt, natFind]

theorem take_add_three_decomp {α : Type} (l : List α) (L : Nat)
    (h : L + 3 ≤ l.length) :
    ∃ h0 : L < l.length, ∃ h1 : L + 1 < l.length, ∃ h2 : L + 2 < l.length,
      l.take (L + 3) =
        l.take L ++ [l.get ⟨L, h0⟩, l.get ⟨L + 1, h1⟩, l.get ⟨L + 2, h2⟩] := by
  have h0 : L < l.length := by omega
  have h1 : L + 1 < l.length := by omega
  have h2 : L + 2 < l.length := by omega
  refine ⟨h0, h1, h2, ?_⟩
  have e1 : l.take (L + 1) = l.take L ++ [l.get ⟨L, h0⟩] := by
    rw [List.take_succ, List.getElem?_eq_getElem h0]
    rfl
  have e2 : l.take (L + 2) = l.take (L + 1) ++ [l.get ⟨L + 1, h1⟩] := by
    rw [List.take_succ, List.getElem?_eq_getElem h1]
    rfl
  have e3 : l.take (L + 3) = l.take (L + 2) ++ [l.get ⟨L + 2, h2⟩] := by
    rw [List.take_succ, List.getElem?_eq_getElem h2]
    rfl
  rw [e3, e2, e1, List.append_assoc, List.append_assoc]
  rfl

/-- Behaviour of unwind_block at a state deep enough for the block: the
operand stack ends exactly at block.level, entries below that level are kept
untouched, and for an except-handler block the three extra entries are popped
last and re-absorbed as the last-exception triple in the order
(exctype, value, tb). -/
theorem unwind_block_spec (s : EngineSt) (B : Block)
    (hlen : B.level + (if B.type = "except-handler" then 3 else 0) ≤
      s.frame.stack.length) :
    ∃ s₂, unwind_block s B = .ok s₂ ∧
      s₂.frame.stack = s.frame.stack.take B.level ∧
      s₂.frame.stack.length = B.level ∧
      s₂.frame.block_stack = s.frame.block_stack ∧
      s₂.frame.f_lasti = s.frame.f_lasti ∧
      s₂.return_value = s.return_value ∧
      (B.type ≠ "except-handler" → s₂.last_exception = s.last_exception) ∧
      (B.type = "except-handler" →
        ∃ tb value exctype,
          s.frame.stack[B.level]? = some tb ∧
          s.frame.stack[B.level + 1]? = some value ∧
          s.frame.stack[B.level + 2]? = some exctype ∧
          s₂.last_exception = some (exctype, value, tb)) := by
  by_cases hB : B.type = "except-handler"
  · rw [if_pos hB] at hlen
    obtain ⟨h0, h1, h2, htake⟩ := take_add_three_decomp s.frame.stack B.level hlen
    have hL : B.level ≤ s.frame.stack.length := by omega
    have htkL : (s.frame.stack.take B.level).length = B.level := by
      rw [List.length_take]
      omega
    have htlen : (s.frame.stack.take (B.level + 3)).length = B.level + 3 := by
      rw [List.length_take]
      omega
    have hsub : B.level + 3 - 3 = B.level := by omega
    have hdrop : (s.frame.stack.take (B.level + 3)).drop
        ((s.frame.stack.take (B.level + 3)).length - 3) =
        [s.frame.stack.get ⟨B.level, h0⟩, s.frame.stack.get ⟨B.level + 1, h1⟩,
         s.frame.stack.get ⟨B.level + 2, h2⟩] := by
      rw [htlen, hsub, htake]
      exact List.drop_left' htkL
    have htak : (s.frame.stack.take (B.level + 3)).take
        ((s.frame.stack.take (B.level + 3)).length - 3) =
        s.frame.stack.take B.level := by
      rw [htlen, hsub, htake]
      exact List.take_left' htkL
    refine ⟨{ s with
        frame := { s.frame with stack := s.frame.stack.take B.level },
        last_exception := some (s.frame.stack.get ⟨B.level + 2, h2⟩,
          s.frame.stack.get ⟨B.level + 1, h1⟩,
          s.frame.stack.get ⟨B.level, h0⟩) }, ?_, rfl, htkL, rfl, rfl, rfl,
      fun hc => absurd hB hc, ?_⟩
    · unfold unwind_block
      rw [if_pos hB, if_pos hB, hdrop, htak]
    · intro _
      exact ⟨_, _, _, List.getElem?_eq_getElem h0, List.getElem?_eq_getElem h1,
        List.getElem?_eq_getElem h2, rfl⟩
  · rw [if_neg hB] at hlen
    refine ⟨{ s with
        frame := { s.frame with stack := s.frame.stack.take B.level } },
      ?_, ?_, ?_, rfl, rfl, rfl, fun _ => rfl, fun hc => absurd hc hB⟩
    · simp [unwind_block, hB]
    · simp
    · rw [List.length_take]
      omega

/-! Claim theorems. -/

/-- C1: the claim states that run_frame pushes the frame onto the engine
frame stack, repeatedly decodes and dispatches instructions, routes non-none
non-yield reasons through the block-unwind machinery, always pops the frame
on loop exit, propagates a final exception reason, and otherwise returns the
engine return_value.  The code does none of this: its parameter list is
(frame, self), so the bound call binds the engine to frame and the actual
frame to self; the body evaluates frame.f_code on the engine object, which
has no such attribute, and the exception handler then evaluates the
undefined bare name handle_exception, so every invocation raises NameError,
never pushes or pops the engine frame stack (returned unchanged here), never
dispatches an instruction, and never returns return_value. -/
theorem c1_run_frame_always_raises_and_never_touches_frames
    (vm : VM) (f : Frame) :
    run_frame vm f =
      (vm, .raises (.nameError "name handle_exception is not defined")) := rfl

/-- C3 counterexample: NOP has no byte_NOP handler, is not RESUME or CACHE,
and matches no operator-family prefix, yet dispatch does not produce a
non-maskable defect: the VirtualMachineError it raises is caught by the
method level `except Exception` and converted into the user-catchable reason
"exception" with the error stored as last_exception (the whyException
outcome), refuting the claim that this conversion never happens. -/
theorem c3_counterexample_unknown_name_becomes_reason_exception :
    dispatch "NOP" = .whyException (.vmError "Unknown bytecode type: NOP") := rfl

/-- C3 amended: for every instruction name with no registered handler (and
which is not RESUME or CACHE, carries no UNARY_/BINARY_/INPLACE_ family
prefix and no SLICE+ routing substring), dispatch raises
VirtualMachineError("Unknown bytecode type: ..."), but because the raise sits
inside the dispatch try statement, the `except Exception` wrapper catches it,
stores it as last_exception, and reports the ordinary user-catchable reason
"exception" - the defect is maskable like any runtime error. -/
theorem c3_amended_unknown_name_is_caught_as_exception (byteName : String)
    (h₁ : byteName ≠ "RESUME") (h₂ : byteName ≠ "CACHE")
    (h₃ : strStartsWith byteName "UNARY_" = false)
    (h₄ : strStartsWith byteName "BINARY_" = false)
    (h₅ : strStartsWith byteName "INPLACE_" = false)
    (h₆ : containsSlicePlus byteName = false)
    (h₇ : byteName ∉ handlerNames) :
    dispatch byteName =
      .whyException (.vmError ("Unknown bytecode type: " ++ byteName)) := by
  unfold dispatch
  simp [h₁, h₂, h₃, h₄, h₅, h₆, h₇]

/-- C3 witness: the amended theorem applied at the handler-less name GET_LEN. -/
theorem c3_witness_get_len :
    dispatch "GET_LEN" =
      .whyException (.vmError "Unknown bytecode type: GET_LEN") :=
  c3_amended_unknown_name_is_caught_as_exception "GET_LEN"
    (by decide) (by decide) rfl rfl rfl rfl (by decide)

/-- C2: whenever run_code returns normally the engine frame stack is empty
and the operand stack of the current frame, when there is one, is empty; a
leftover frame or stack entry is reported as VirtualMachineError and never
silently ignored.  The run_frame call inside run_code is quantified as a
parameter because the run_frame of this repository never returns normally
(see the C1 theorem); the leftover checks of run_code (pyvm2.py:190-196) are
what the claim describes. -/
theorem c2_run_code_stack_balance
    (runFrameF : VM → Heap → Frame → Except PyExc (BVal × VM × Heap))
    (vm : VM) (σ : Heap) (code : Code) (g l : Option Nat) :
    (∀ val vm₂ σ₂, run_code runFrameF vm σ code g l = .ok (val, vm₂, σ₂) →
        vm₂.frames = [] ∧ ∀ f, vm₂.frame = some f → f.stack = []) ∧
    (∀ fr back σ₁ val vm₁ σ₂,
        make_frame vm σ code [] g l = .ok (fr, back, σ₁) →
        runFrameF { vm with frame := back } σ₁ fr = .ok (val, vm₁, σ₂) →
        vm₁.frames ≠ [] →
        run_code runFrameF vm σ code g l = .error (.vmError "Frames left over!")) ∧
    (∀ fr back σ₁ val vm₁ σ₂ f,
        make_frame vm σ code [] g l = .ok (fr, back, σ₁) →
        runFrameF { vm with frame := back } σ₁ fr = .ok (val, vm₁, σ₂) →
        vm₁.frames = [] → vm₁.frame = some f → f.stack ≠ [] →
        run_code runFrameF vm σ code g l =
          .error (.vmError "Data remains on stack!")) := by
  refine ⟨?_, ?_, ?_⟩
  · intro val vm₂ σ₂ h
    unfold run_code at h
    split at h
    · simp at h
    · split at h
      · simp at h
      · rename_i val₁ vm₁ σ₂' hrfeq
        split at h
        · simp at h
        · rename_i hfe
          have hfe' : vm₁.frames = [] := by
            rcases hfl : vm₁.frames with _ | ⟨a, t⟩
            · rfl
            · rw [hfl] at hfe; simp at hfe
          split at h
          · rename_i f hfr
            split at h
            · simp at h
            · rename_i hfs
              have hfs' : f.stack = [] := by
                rcases hfl : f.stack with _ | ⟨a, t⟩
                · rfl
                · rw [hfl] at hfs; simp at hfs
              obtain ⟨h1, h2, h3⟩ : val₁ = val ∧ vm₁ = vm₂ ∧ σ₂' = σ₂ := by
                simpa using h
              subst h2
              refine ⟨hfe', ?_⟩
              intro f' hf'
              rw [hfr] at hf'
              cases hf'
              exact hfs'
          · rename_i hfr
            obtain ⟨h1, h2, h3⟩ : val₁ = val ∧ vm₁ = vm₂ ∧ σ₂' = σ₂ := by
              simpa using h
            subst h2
            refine ⟨hfe', ?_⟩
            intro f hf
            rw [hfr] at hf
            cases hf
  · intro fr back σ₁ val vm₁ σ₂ hmf hrf hne
    unfold run_code
    have h1 : vm₁.frames.isEmpty = false := by
      cases hfl : vm₁.frames with
      | nil => exact absurd hfl hne
      | cons a t => simp
    simp only [hmf, hrf, h1, if_true]
  · intro fr back σ₁ val vm₁ σ₂ f hmf hrf hemp hfr hne
    unfold run_code
    have h1 : vm₁.frames.isEmpty = true := by simp [hemp]
    have h2 : f.stack.isEmpty = false := by
      cases hfl : f.stack with
      | nil => exact absurd hfl hne
      | cons a t => simp
    simp [hmf, hrf, h1, hfr, h2]

/-- C2 witness: the first part of the theorem applied to a concrete engine,
heap and trivial run-frame semantics for which run_code returns normally. -/
theorem c2_witness :
    (⟨[], none, BVal.vnone, none⟩ : VM).frames = [] ∧
      (∀ f, (⟨[], none, BVal.vnone, none⟩ : VM).frame = some f →
        f.stack = []) :=
  (c2_run_code_stack_balance (fun v s _ => .ok (.vnone, v, s))
      ⟨[], none, .vnone, none⟩ ⟨[(0, [])], [], 1, 0⟩ code0 (some 0) none).1
    .vnone ⟨[], none, .vnone, none⟩ ⟨[(0, [])], [], 1, 0⟩ rfl

/-- C5: for a block whose recorded level (plus the except-handler offset of
3) is within the current stack depth, unwind_block leaves the stack at depth
exactly block.level, every entry below that level is kept unchanged, and for
an except-handler block the three extra entries are popped last and
re-absorbed into the last-exception triple; for other blocks last_exception
is untouched. -/
theorem c5_unwind_block_exact_level (s : EngineSt) (B : Block)
    (hlen : B.level + (if B.type = "except-handler" then 3 else 0) ≤
      s.frame.stack.length) :
    ∃ s₂, unwind_block s B = .ok s₂ ∧
      s₂.frame.stack.length = B.level ∧
      s₂.frame.stack = s.frame.stack.take B.level ∧
      (∀ i, i < B.level → s₂.frame.stack[i]? = s.frame.stack[i]?) ∧
      (B.type ≠ "except-handler" → s₂.last_exception = s.last_exception) ∧
      (B.type = "except-handler" →
        ∃ tb value exctype,
          s.frame.stack[B.level]? = some tb ∧
          s.frame.stack[B.level + 1]? = some value ∧
          s.frame.stack[B.level + 2]? = some exctype ∧
          s₂.last_exception = some (exctype, value, tb)) := by
  obtain ⟨s₂, h1, h2, h3, _, _, _, h7, h8⟩ := unwind_block_spec s B hlen
  refine ⟨s₂, h1, h3, h2, ?_, h7, h8⟩
  intro i hi
  rw [h2, List.getElem?_take, if_pos hi]

/-- C5 witness: the theorem applied to an except-handler block at level 1
over a four-entry stack. -/
theorem c5_witness :
    ∃ s₂, unwind_block
        ⟨⟨code0, 0, 0, .vnone, [.vint 9, .vint 1, .vint 2, .vint 3], 1,
          .vint 0, none, [], false⟩, .vnone, none⟩
        ⟨"except-handler", none, 1⟩ = .ok s₂ ∧
      s₂.frame.stack.length = 1 ∧
      s₂.frame.stack =
        ([.vint 9, .vint 1, .vint 2, .vint 3] : List BVal).take 1 ∧
      (∀ i, i < 1 → s₂.frame.stack[i]? =
        ([.vint 9, .vint 1, .vint 2, .vint 3] : List BVal)[i]?) ∧
      (("except-handler" : String) ≠ "except-handler" →
        s₂.last_exception = none) ∧
      (("except-handler" : String) = "except-handler" →
        ∃ tb value exctype,
          ([.vint 9, .vint 1, .vint 2, .vint 3] : List BVal)[1]? = some tb ∧
          ([.vint 9, .vint 1, .vint 2, .vint 3] : List BVal)[2]? = some value ∧
          ([.vint 9, .vint 1, .vint 2, .vint 3] : List BVal)[3]? = some exctype ∧
          s₂.last_exception = some (exctype, value, tb)) :=
  c5_unwind_block_exact_level
    ⟨⟨code0, 0, 0, .vnone, [.vint 9, .vint 1, .vint 2, .vint 3], 1,
      .vint 0, none, [], false⟩, .vnone, none⟩
    ⟨"except-handler", none, 1⟩ (by decide)

/-- C4 counterexample: a finally block with incoming reason break is claimed
to be an unmatched row (pop, unwind, reason unchanged), but the source
branch `elif block.type == "finally"` captures it: the token "break" is
pushed, execution jumps to the handler (offset 7 here), and the reason
becomes None instead of staying break. -/
theorem c4_counterexample_finally_break :
    manage_block_stack
      ⟨⟨code0, 0, 0, .vnone, [], 1, .vint 0, none,
        [⟨"finally", some 7, 0⟩], false⟩, .vnone, none⟩
      .rBreak
    = .ok (none,
        ⟨⟨code0, 0, 0, .vnone, [.vstr "break"], 1, .vint 7, none, [], false⟩,
         .vnone, none⟩) := rfl

/-- C4 amended: for every innermost block B and reason why matching none of
the listed rows of the unwind table, where the finally row in fact covers
reason break as well (so B.type = finally is excluded here rather than only
finally with return or continue, see the counterexample), one step pops B,
unwinds the stack to B.level (plus 3 for an except-handler, whose saved
triple is re-absorbed into last-exception state), and returns the reason
unchanged so processing continues with the next block.  In particular an
except-handler block behaves this way for every reason. -/
theorem c4_amended_unmatched_rows (s : EngineSt) (why : Reason) (B : Block)
    (hlast : s.frame.block_stack.getLast? = some B)
    (hy : why ≠ .rYield)
    (hloop : ¬ (B.type = "loop" ∧ (why = .rContinue ∨ why = .rBreak)))
    (hexc : ¬ (why = .rException ∧ (B.type = "setup-except" ∨ B.type = "finally")))
    (hfin : B.type ≠ "finally")
    (hlen : B.level + (if B.type = "except-handler" then 3 else 0) ≤
      s.frame.stack.length) :
    ∃ s₂, manage_block_stack s why = .ok (some why, s₂) ∧
      s₂.frame.stack = s.frame.stack.take B.level ∧
      s₂.frame.stack.length = B.level ∧
      s₂.frame.block_stack = s.frame.block_stack.dropLast ∧
      s₂.return_value = s.return_value ∧
      s₂.frame.f_lasti = s.frame.f_lasti ∧
      (B.type ≠ "except-handler" → s₂.last_exception = s.last_exception) ∧
      (B.type = "except-handler" →
        ∃ tb value exctype,
          s.frame.stack[B.level]? = some tb ∧
          s.frame.stack[B.level + 1]? = some value ∧
          s.frame.stack[B.level + 2]? = some exctype ∧
          s₂.last_exception = some (exctype, value, tb)) := by
  have hl1 : ¬ (B.type = "loop" ∧ why = .rContinue) := by
    intro hc
    exact hloop ⟨hc.1, Or.inl hc.2⟩
  have hl2 : ¬ (B.type = "loop" ∧ why = .rBreak) := by
    intro hc
    exact hloop ⟨hc.1, Or.inr hc.2⟩
  obtain ⟨s₂, hu, hstk, hlen2, hbs, hlst, hrv, hne, hex⟩ :=
    unwind_block_spec
      { s with frame :=
          { s.frame with block_stack := s.frame.block_stack.dropLast } }
      B hlen
  refine ⟨s₂, ?_, hstk, hlen2, hbs, hrv, hlst, hne, hex⟩
  unfold manage_block_stack
  rw [if_neg hy]
  dsimp only at hu ⊢
  split
  · rename_i hnone
    rw [hlast] at hnone
    cases hnone
  · rename_i block hsome
    rw [hlast] at hsome
    injection hsome with hbk
    subst hbk
    rw [if_neg hl1]
    split
    · rename_i e herr
      rw [hu] at herr
      cases herr
    · rename_i s₂' hok
      rw [hu] at hok
      injection hok with hs2
      subst hs2
      rw [if_neg hl2, if_neg hexc, if_neg hfin]

/-- C4 witness: the amended theorem applied to an except-handler block at
level 0 holding its saved triple, with incoming reason return. -/
theorem c4_witness :
    ∃ s₂, manage_block_stack
        ⟨⟨code0, 0, 0, .vnone, [.vint 1, .vint 2, .vint 3], 1, .vint 0, none,
          [⟨"except-handler", none, 0⟩], false⟩, .vnone, none⟩
        .rReturn = .ok (some .rReturn, s₂) ∧
      s₂.frame.stack =
        ([.vint 1, .vint 2, .vint 3] : List BVal).take 0 ∧
      s₂.frame.stack.length = 0 ∧
      s₂.frame.block_stack =
        ([⟨"except-handler", none, 0⟩] : List Block).dropLast ∧
      s₂.return_value = .vnone ∧
      s₂.frame.f_lasti = .vint 0 ∧
      (("except-handler" : String) ≠ "except-handler" →
        s₂.last_exception = none) ∧
      (("except-handler" : String) = "except-handler" →
        ∃ tb value exctype,
          ([.vint 1, .vint 2, .vint 3] : List BVal)[0]? = some tb ∧
          ([.vint 1, .vint 2, .vint 3] : List BVal)[1]? = some value ∧
          ([.vint 1, .vint 2, .vint 3] : List BVal)[2]? = some exctype ∧
          s₂.last_exception = some (exctype, value, tb)) :=
  c4_amended_unmatched_rows
    ⟨⟨code0, 0, 0, .vnone, [.vint 1, .vint 2, .vint 3], 1, .vint 0, none,
      [⟨"except-handler", none, 0⟩], false⟩, .vnone, none⟩
    .rReturn ⟨"except-handler", none, 0⟩
    (by decide) (by decide) (by decide) (by decide) (by decide) (by decide)

/-- C6: a never-started generator rejects a non-None resumption value with
TypeError before anything runs; when the finished flag holds after the frame
resumes (byte_RETURN_VALUE sets it on return, final conjunct), send raises
StopIteration carrying the value the resumption produced (the engine
return_value, the generator final return value, when the frame returned);
otherwise send returns the produced value.  resume abstracts
vm.resume_frame applied to the suspended frame after the value was appended
to its stack and started was set. -/
theorem c6_generator_send_protocol (g : GenSt) (value : BVal)
    (resume : GenSt → BVal × Bool) :
    (g.started = false → isNoneV value = false →
      Generator.send g value resume =
        .error (.typeError
          "Cannot send a non-None value to a just-started generator")) ∧
    (∀ val, (g.started = true ∨ isNoneV value = true) →
      resume ⟨g.gi_frame_stack ++ [value], true, g.finished⟩ = (val, true) →
      Generator.send g value resume = .error (.stopIteration val)) ∧
    (∀ val, (g.started = true ∨ isNoneV value = true) →
      resume ⟨g.gi_frame_stack ++ [value], true, g.finished⟩ = (val, false) →
      Generator.send g value resume =
        .ok (val, ⟨g.gi_frame_stack ++ [value], true, false⟩)) ∧
    (∀ s gf v, s.frame.generator = true → s.frame.stack.getLast? = some v →
      byte_RETURN_VALUE s gf =
        .ok (some .rReturn,
          ⟨⟨s.frame.f_code, s.frame.f_globals, s.frame.f_locals,
            s.frame.f_builtins, s.frame.stack.dropLast, s.frame.f_lineno,
            s.frame.f_lasti, s.frame.cells, s.frame.block_stack,
            s.frame.generator⟩, v, s.last_exception⟩,
          true)) := by
  have hneg : (g.started = true ∨ isNoneV value = true) →
      ¬ (g.started = false ∧ isNoneV value = false) := by
    rintro (h | h) ⟨h1, h2⟩
    · rw [h] at h1; cases h1
    · rw [h] at h2; cases h2
  refine ⟨?_, ?_, ?_, ?_⟩
  · intro h1 h2
    unfold Generator.send
    rw [if_pos ⟨h1, h2⟩]
  · intro val hc hres
    unfold Generator.send
    rw [if_neg (hneg hc)]
    dsimp only
    simp [hres]
  · intro val hc hres
    unfold Generator.send
    rw [if_neg (hneg hc)]
    dsimp only
    simp [hres]
  · intro s gf v hgen hlastv
    simp [byte_RETURN_VALUE, hlastv, hgen]

/-- C6 witness: the four parts of the theorem at concrete generators: a fresh
generator sent the non-None value 1, a started generator whose resumption
finishes with value 5, one whose resumption suspends with value 7, and a
generator-backed frame returning 3. -/
theorem c6_witness :
    Generator.send ⟨[], false, false⟩ (.vint 1) (fun _ => (.vnone, false)) =
      .error (.typeError
        "Cannot send a non-None value to a just-started generator") ∧
    Generator.send ⟨[], true, false⟩ .vnone (fun _ => (.vint 5, true)) =
      .error (.stopIteration (.vint 5)) ∧
    Generator.send ⟨[], true, false⟩ .vnone (fun _ => (.vint 7, false)) =
      .ok (.vint 7, ⟨[BVal.vnone], true, false⟩) ∧
    byte_RETURN_VALUE
      ⟨⟨code0, 0, 0, .vnone, [.vint 3], 1, .vint 0, none, [], true⟩,
       .vnone, none⟩ false =
      .ok (some .rReturn,
        ⟨⟨code0, 0, 0, .vnone, [], 1, .vint 0, none, [], true⟩,
         .vint 3, none⟩, true) :=
  ⟨(c6_generator_send_protocol ⟨[], false, false⟩ (.vint 1)
      (fun _ => (.vnone, false))).1 rfl rfl,
   (c6_generator_send_protocol ⟨[], true, false⟩ .vnone
      (fun _ => (.vint 5, true))).2.1 (.vint 5) (Or.inl rfl) rfl,
   (c6_generator_send_protocol ⟨[], true, false⟩ .vnone
      (fun _ => (.vint 7, false))).2.2.1 (.vint 7) (Or.inl rfl) rfl,
   (c6_generator_send_protocol ⟨[], true, false⟩ .vnone
      (fun _ => (.vint 7, false))).2.2.2
     ⟨⟨code0, 0, 0, .vnone, [.vint 3], 1, .vint 0, none, [], true⟩,
      .vnone, none⟩ false (.vint 3) rfl rfl⟩

/-- C8: for a frame whose globals dict is not the identical object of the
caller globals (or which has no caller), the builtins mapping is the value of
globals under the key __builtins__, replaced by its attribute dictionary when
the object has one, and a missing key does not fail construction: the
builtins become the one-entry dict binding the key None to the value None. -/
theorem c8_frame_builtins_resolution (code : Code) (g l : Nat)
    (f_back : Option Frame) (σ : Heap)
    (hb : ∀ b, f_back = some b → b.f_globals ≠ g) :
    (∀ fr b₂ σ₂, Frame.init code g l f_back σ = .ok (fr, b₂, σ₂) →
      fr.f_builtins = builtinsFrom σ g) ∧
    (code.co_cellvars = [] → code.co_freevars = [] →
      ∃ fr, Frame.init code g l f_back σ = .ok (fr, f_back, σ) ∧
        fr.f_builtins = builtinsFrom σ g) ∧
    (assocFind (σ.dictAt g) "__builtins__" = none →
      builtinsFrom σ g = .vlitDict [("None", BVal.vnone)]) ∧
    (∀ v, assocFind (σ.dictAt g) "__builtins__" = some v →
      builtinsFrom σ g = (if hasDunderDict v then dunderDict v else v)) := by
  have hbch : initBuiltins g f_back σ = builtinsFrom σ g := by
    unfold initBuiltins
    cases f_back with
    | none => rfl
    | some b => simp [hb b rfl]
  refine ⟨?_, ?_, ?_, ?_⟩
  · intro fr b₂ σ₂ h
    unfold Frame.init at h
    split at h
    · cases h
    · split at h
      · cases h
      · injection h with h'
        injection h' with ha hbc
        rw [← ha]
        exact hbch
  · intro hc hf
    have hinit : Frame.init code g l f_back σ =
        .ok ({ f_code := code, f_globals := g, f_locals := l,
               f_builtins := initBuiltins g f_back σ, stack := [],
               f_lineno := code.co_firstlineno, f_lasti := .vint 0,
               cells := none, block_stack := [], generator := false },
             f_back, σ) := by
      unfold Frame.init initCells initFree
      rw [if_pos hc]
      dsimp only
      rw [if_pos hf]
    exact ⟨_, hinit, hbch⟩
  · intro hnone
    unfold builtinsFrom
    rw [hnone]
  · intro v hv
    unfold builtinsFrom
    rw [hv]

/-- C8 witness: the existence part and the missing-key part of the theorem at
a frame with no caller over a heap whose globals dict 0 is empty. -/
theorem c8_witness :
    (∃ fr, Frame.init code0 0 0 none ⟨[(0, [])], [], 1, 0⟩ =
        .ok (fr, none, ⟨[(0, [])], [], 1, 0⟩) ∧
      fr.f_builtins = builtinsFrom ⟨[(0, [])], [], 1, 0⟩ 0) ∧
    builtinsFrom ⟨[(0, [])], [], 1, 0⟩ 0 = .vlitDict [("None", BVal.vnone)] :=
  ⟨(c8_frame_builtins_resolution code0 0 0 none ⟨[(0, [])], [], 1, 0⟩
      (fun b hb => by cases hb)).2.1 rfl rfl,
   (c8_frame_builtins_resolution code0 0 0 none ⟨[(0, [])], [], 1, 0⟩
      (fun b hb => by cases hb)).2.2.1 rfl⟩

theorem store_name_then_load_global (fr : Frame)
    (hsame : fr.f_locals = fr.f_globals) (σ₃ : Heap) (v : BVal) (name : String)
    (fr₁ : Frame) (σ₄ : Heap)
    (hst : byte_STORE_NAME { fr with stack := fr.stack ++ [v] } σ₃ name =
      .ok (fr₁, σ₄)) :
    byte_LOAD_GLOBAL fr₁ σ₄ name =
      .ok ({ fr₁ with stack := fr₁.stack ++ [v] }, σ₄) := by
  unfold byte_STORE_NAME at hst
  dsimp only at hst
  rw [List.getLast?_concat] at hst
  injection hst with h'
  injection h' with ha hσ
  subst hσ
  subst ha
  unfold byte_LOAD_GLOBAL
  dsimp only
  have hdict : (σ₃.setKey fr.f_locals name v).dictAt fr.f_globals =
      assocSet (σ₃.dictAt fr.f_locals) name v := by
    rw [← hsame, Heap.dictAt_setKey_self]
  rw [hdict, assocFind_assocSet_self]
  rfl

theorem store_global_then_load_name (fr : Frame)
    (hsame : fr.f_locals = fr.f_globals) (σ₃ : Heap) (v : BVal) (name : String)
    (fr₁ : Frame) (σ₄ : Heap)
    (hst : byte_STORE_GLOBAL { fr with stack := fr.stack ++ [v] } σ₃ name =
      .ok (fr₁, σ₄)) :
    byte_LOAD_NAME fr₁ σ₄ name =
      .ok ({ fr₁ with stack := fr₁.stack ++ [v] }, σ₄) := by
  unfold byte_STORE_GLOBAL at hst
  dsimp only at hst
  rw [List.getLast?_concat] at hst
  injection hst with h'
  injection h' with ha hσ
  subst hσ
  subst ha
  unfold byte_LOAD_NAME
  dsimp only
  have hdict : (σ₃.setKey fr.f_globals name v).dictAt fr.f_locals =
      assocSet (σ₃.dictAt fr.f_globals) name v := by
    rw [hsame, Heap.dictAt_setKey_self]
  rw [hdict, assocFind_assocSet_self]
  rfl

/-- C9: make_frame called with an explicit globals dict and no locals dict
makes the locals mapping of the new frame the very same dict object as its
globals mapping (the identical heap id, not a copy): a store into a local
name (byte_STORE_NAME) is immediately visible to a global load of the same
name (byte_LOAD_GLOBAL), and a store into a global name (byte_STORE_GLOBAL)
is immediately visible to a plain name load (byte_LOAD_NAME, which reads the
locals mapping first). -/
theorem c9_make_frame_locals_are_globals (vm : VM) (σ : Heap) (code : Code)
    (callargs : Entries) (g : Nat) (fr : Frame) (back : Option Frame)
    (σ₂ : Heap)
    (h : make_frame vm σ code callargs (some g) none = .ok (fr, back, σ₂)) :
    fr.f_globals = g ∧ fr.f_locals = g ∧
    (∀ σ₃ v name fr₁ σ₄,
      byte_STORE_NAME { fr with stack := fr.stack ++ [v] } σ₃ name =
        .ok (fr₁, σ₄) →
      byte_LOAD_GLOBAL fr₁ σ₄ name =
        .ok ({ fr₁ with stack := fr₁.stack ++ [v] }, σ₄)) ∧
    (∀ σ₃ v name fr₁ σ₄,
      byte_STORE_GLOBAL { fr with stack := fr.stack ++ [v] } σ₃ name =
        .ok (fr₁, σ₄) →
      byte_LOAD_NAME fr₁ σ₄ name =
        .ok ({ fr₁ with stack := fr₁.stack ++ [v] }, σ₄)) := by
  have hfl : fr.f_globals = g ∧ fr.f_locals = g := by
    unfold make_frame at h
    dsimp only at h
    unfold Frame.init at h
    split at h
    · cases h
    · split at h
      · cases h
      · injection h with h'
        injection h' with ha hbc
        subst ha
        exact ⟨rfl, rfl⟩
  have hsame : fr.f_locals = fr.f_globals := by rw [hfl.1, hfl.2]
  exact ⟨hfl.1, hfl.2,
    fun σ₃ v name fr₁ σ₄ hst =>
      store_name_then_load_global fr hsame σ₃ v name fr₁ σ₄ hst,
    fun σ₃ v name fr₁ σ₄ hst =>
      store_global_then_load_name fr hsame σ₃ v name fr₁ σ₄ hst⟩

/-- C9 witness: the theorem applied to a concrete top-level engine with an
explicit globals dict of id 0 and no locals argument, then a store of 5 under
the name x followed by a global load of x. -/
theorem c9_witness :
    (⟨code0, 0, 0, .vlitDict [("None", BVal.vnone)], [], 1, .vint 0, none, [],
      false⟩ : Frame).f_globals = 0 ∧
    byte_LOAD_GLOBAL
      ⟨code0, 0, 0, .vlitDict [("None", BVal.vnone)], [], 1, .vint 0, none, [],
        false⟩
      ⟨[(0, [("x", BVal.vint 5)]), (0, [])], [], 1, 0⟩ "x" =
      .ok (⟨code0, 0, 0, .vlitDict [("None", BVal.vnone)], [.vint 5], 1,
            .vint 0, none, [], false⟩,
        ⟨[(0, [("x", BVal.vint 5)]), (0, [])], [], 1, 0⟩) :=
  ⟨(c9_make_frame_locals_are_globals ⟨[], none, .vnone, none⟩
      ⟨[(0, [])], [], 1, 0⟩ code0 [] 0
      ⟨code0, 0, 0, .vlitDict [("None", BVal.vnone)], [], 1, .vint 0, none, [],
        false⟩ none ⟨[(0, [])], [], 1, 0⟩ rfl).1,
   (c9_make_frame_locals_are_globals ⟨[], none, .vnone, none⟩
      ⟨[(0, [])], [], 1, 0⟩ code0 [] 0
      ⟨code0, 0, 0, .vlitDict [("None", BVal.vnone)], [], 1, .vint 0, none, [],
        false⟩ none ⟨[(0, [])], [], 1, 0⟩ rfl).2.2.1
     ⟨[(0, [])], [], 1, 0⟩ (.vint 5) "x"
     ⟨code0, 0, 0, .vlitDict [("None", BVal.vnone)], [], 1, .vint 0, none, [],
       false⟩
     ⟨[(0, [("x", BVal.vint 5)]), (0, [])], [], 1, 0⟩ rfl⟩

theorem cellFold_spec (f_locals : Nat) (vars : List String) :
    ∀ (sc bc : List (String × Nat)) (σ : Heap),
    ((vars.foldl (cellStep f_locals) (sc, bc, σ)).2.2.dicts = σ.dicts) ∧
    (σ.nextCell ≤ (vars.foldl (cellStep f_locals) (sc, bc, σ)).2.2.nextCell) ∧
    (∀ cid, cid < σ.nextCell →
      (vars.foldl (cellStep f_locals) (sc, bc, σ)).2.2.cellAt cid =
        σ.cellAt cid) ∧
    (∀ var, var ∉ vars →
      assocFind (vars.foldl (cellStep f_locals) (sc, bc, σ)).1 var =
        assocFind sc var ∧
      assocFind (vars.foldl (cellStep f_locals) (sc, bc, σ)).2.1 var =
        assocFind bc var) ∧
    (∀ var, var ∈ vars →
      ∃ cid,
        assocFind (vars.foldl (cellStep f_locals) (sc, bc, σ)).1 var =
          some cid ∧
        assocFind (vars.foldl (cellStep f_locals) (sc, bc, σ)).2.1 var =
          some cid ∧
        (vars.foldl (cellStep f_locals) (sc, bc, σ)).2.2.cellAt cid =
          some ((assocFind (σ.dictAt f_locals) var).getD BVal.vnone)) := by
  induction vars with
  | nil =>
      intro sc bc σ
      simp
  | cons var rest ih =>
      intro sc bc σ
      simp only [List.foldl_cons]
      have hstep : cellStep f_locals (sc, bc, σ) var =
          (assocSet sc var σ.nextCell, assocSet bc var σ.nextCell,
           ⟨σ.dicts,
            (σ.nextCell, (assocFind (σ.dictAt f_locals) var).getD BVal.vnone)
              :: σ.cells,
            σ.nextDict, σ.nextCell + 1⟩) := rfl
      rw [hstep]
      obtain ⟨ihd, ihn, ihp, ihnot, ihmem⟩ :=
        ih (assocSet sc var σ.nextCell) (assocSet bc var σ.nextCell)
          ⟨σ.dicts,
           (σ.nextCell, (assocFind (σ.dictAt f_locals) var).getD BVal.vnone)
             :: σ.cells,
           σ.nextDict, σ.nextCell + 1⟩
      have hpres : ∀ cid, cid < σ.nextCell →
          (Heap.cellAt
            ⟨σ.dicts,
             (σ.nextCell, (assocFind (σ.dictAt f_locals) var).getD BVal.vnone)
               :: σ.cells,
             σ.nextDict, σ.nextCell + 1⟩ cid) = σ.cellAt cid := by
        intro cid hcid
        simp [Heap.cellAt, natFind, Nat.ne_of_gt hcid]
      have hnew : (Heap.cellAt
          ⟨σ.dicts,
           (σ.nextCell, (assocFind (σ.dictAt f_locals) var).getD BVal.vnone)
             :: σ.cells,
           σ.nextDict, σ.nextCell + 1⟩ σ.nextCell) =
          some ((assocFind (σ.dictAt f_locals) var).getD BVal.vnone) := by
        simp [Heap.cellAt, natFind]
      dsimp only at ihd ihn ihp ihnot ihmem
      refine ⟨ihd, by omega, ?_, ?_, ?_⟩
      · intro cid hcid
        rw [ihp cid (by omega)]
        exact hpres cid hcid
      · intro var' hvr
        have hne : var' ≠ var := fun hc => hvr (hc ▸ List.mem_cons_self var rest)
        have hnr : var' ∉ rest := fun hc => hvr (List.mem_cons_of_mem var hc)
        obtain ⟨ih1, ih2⟩ := ihnot var' hnr
        rw [ih1, ih2, assocFind_assocSet_ne sc var var' _ (Ne.symm hne),
          assocFind_assocSet_ne bc var var' _ (Ne.symm hne)]
        exact ⟨rfl, rfl⟩
      · intro var' hvr
        by_cases hr : var' ∈ rest
        · obtain ⟨cid, hm1, hm2, hm3⟩ := ihmem var' hr
          exact ⟨cid, hm1, hm2, hm3⟩
        · have hveq : var' = var := by
            rcases List.mem_cons.mp hvr with h | h
            · exact h
            · exact absurd h hr
          subst hveq
          obtain ⟨ih1, ih2⟩ := ihnot var' hr
          refine ⟨σ.nextCell, ?_, ?_, ?_⟩
          · rw [ih1, assocFind_assocSet_self]
          · rw [ih2, assocFind_assocSet_self]
          · rw [ihp σ.nextCell (by omega)]
            exact hnew

/-- C10: constructing a frame whose code declares cell variables mutates the
caller: the caller cell table exists afterwards (created when it was absent
or empty), and for each declared cell variable one Cell, initialized from the
locals mapping of the new frame, is bound under that name in both the new
frame table and the caller table - both tables hold the identical cell id,
whose heap content is the locals value (or None), and a previous same-named
binding in the caller table is overwritten by this fresh id. -/
theorem c10_frame_init_publishes_cells (code : Code) (g l : Nat) (b : Frame)
    (σ : Heap) (hcv : code.co_cellvars ≠ []) (hfv : code.co_freevars = []) :
    ∃ scs bcs σ₂ fr,
      Frame.init code g l (some b) σ =
        .ok (fr, some { b with cells := some bcs }, σ₂) ∧
      fr.cells = some scs ∧
      ∀ var ∈ code.co_cellvars,
        ∃ cid, assocFind scs var = some cid ∧ assocFind bcs var = some cid ∧
          σ₂.cellAt cid =
            some ((assocFind (σ.dictAt l) var).getD BVal.vnone) := by
  have hbc0 : ∀ R : List (String × Nat) × List (String × Nat) × Heap,
      R = code.co_cellvars.foldl (cellStep l)
        ([], (match b.cells with
              | none => []
              | some cs => if cs.isEmpty then [] else cs), σ) →
      Frame.init code g l (some b) σ =
        .ok ({ f_code := code, f_globals := g, f_locals := l,
               f_builtins := initBuiltins g (some b) σ, stack := [],
               f_lineno := code.co_firstlineno, f_lasti := .vint 0,
               cells := some R.1, block_stack := [], generator := false },
             some { b with cells := some R.2.1 }, R.2.2) := by
    intro R hR
    have hIC : initCells code l (some b) σ =
        .ok (some R.1, some { b with cells := some R.2.1 }, R.2.2) := by
      unfold initCells
      rw [if_neg hcv]
      dsimp only
      rw [hR]
    unfold Frame.init
    rw [hIC]
    dsimp only
    unfold initFree
    rw [if_pos hfv]
  obtain ⟨ihd, ihn, ihp, ihnot, ihmem⟩ :=
    cellFold_spec l code.co_cellvars []
      (match b.cells with
       | none => []
       | some cs => if cs.isEmpty then [] else cs) σ
  refine ⟨_, _, _, _, hbc0 _ rfl, rfl, ?_⟩
  intro var hv
  exact ihmem var hv

/-- C10 witness: the theorem applied to a code object declaring the cell
variable x, a caller without a cell table, and a locals dict (id 1) binding
x to 42. -/
theorem c10_witness :
    ∃ scs bcs σ₂ fr,
      Frame.init codeCell 0 1
        (some ⟨code0, 0, 0, .vnone, [], 1, .vint 0, none, [], false⟩)
        ⟨[(1, [("x", BVal.vint 42)])], [], 2, 0⟩ =
        .ok (fr,
          some { (⟨code0, 0, 0, .vnone, [], 1, .vint 0, none, [],
            false⟩ : Frame) with cells := some bcs }, σ₂) ∧
      fr.cells = some scs ∧
      ∀ var ∈ codeCell.co_cellvars,
        ∃ cid, assocFind scs var = some cid ∧ assocFind bcs var = some cid ∧
          σ₂.cellAt cid =
            some ((assocFind
              (Heap.dictAt ⟨[(1, [("x", BVal.vint 42)])], [], 2, 0⟩ 1)
              var).getD BVal.vnone) :=
  c10_frame_init_publishes_cells codeCell 0 1
    ⟨code0, 0, 0, .vnone, [], 1, .vint 0, none, [], false⟩
    ⟨[(1, [("x", BVal.vint 42)])], [], 2, 0⟩ (by decide) rfl

/-- C7: the claim states that a first positional argument that is not an
instance of the declaring class of the method makes the call protocol raise a
type error naming the expected class and the actual type.  On the failing
input below (a bound Method whose receiver is an instance of class A while
im_class is B) the source reaches its raise TypeError statement, but building
the message evaluates func.__name__ on the Method object, which has only the
attributes im_self, im_class and im_func, so the call raises AttributeError
instead and the promised TypeError message is never produced. -/
theorem c7_method_mismatch_raises_attribute_error :
    call_function
      ⟨⟨code0, 0, 0, .vnone, [BVal.vmethod (some (.vobj "A")) "B" 0], 1,
        .vint 0, none, [], false⟩, .vnone, none⟩
      0 [] [] nullInvoke
    = .error (.attributeError "Method object has no attribute __name__") := rfl

end Byterun
